import Mathlib

/-!
Shallow embedding of `src/doc/plot_wave_height_certainty_forecast.py`.

The script loads a JSON array of forecast records, extracts four parallel
series (timestamps, wave heights, ensemble spreads, ensemble means),
derives `normalized_spread = 1 - spread / mean`, prints the min and max of
the first 48 derived values, and renders a chart whose shaded band is
`mean ± 0.5 * spread`.

Modelling choices:
* JSON numbers are exact rationals (`ℚ`); NumPy float arithmetic on them is
  modelled exactly, with the IEEE non-finite outcomes of division by zero
  kept as explicit `NpVal` constructors (`inf`, `ninf`, `nan`).
* Python exceptions are modelled by `Except ScriptError`; the script
  installs no handler, so any raised error aborts the run with no output.
* `datetime.datetime.strptime` with the fixed format `%Y-%m-%dT%H:%M:%S`
  is modelled after CPython `_strptime`: `%Y` is exactly four digits, the
  other fields accept one or two digits (regex alternations
  `1[0-2]|0[1-9]|[1-9]` for `%m`, `3[01]|[12]\d|0[1-9]|[1-9]` for `%d`,
  `2[0-3]|[0-1]\d|\d` for `%H`, `[0-5]\d|\d` for `%M`,
  `6[0-1]|[0-5]\d|\d` for `%S`), the whole string must be consumed, and
  the resulting `datetime` constructor validates the calendar day and
  rejects leap seconds.
-/

namespace Surfrs

/-- Decidable equality of `Except` results, so that runs of the embedded
script can be checked on concrete inputs. -/
instance {ε α : Type} [DecidableEq ε] [DecidableEq α] :
    DecidableEq (Except ε α) := fun x y =>
  match x, y with
  | .ok a, .ok b =>
    if h : a = b then .isTrue (by rw [h]) else .isFalse (by simp [h])
  | .error e, .error f =>
    if h : e = f then .isTrue (by rw [h]) else .isFalse (by simp [h])
  | .ok _, .error _ => .isFalse (by simp)
  | .error _, .ok _ => .isFalse (by simp)

/-- A calendar instant as produced by `datetime.datetime.strptime` with the
format string `%Y-%m-%dT%H:%M:%S` (no fractional seconds, no zone). -/
structure DateTime where
  year : Nat
  month : Nat
  day : Nat
  hour : Nat
  minute : Nat
  second : Nat
  deriving DecidableEq, Repr

/-- Numeric value of a decimal digit character, `none` on non-digits. -/
def digitVal (c : Char) : Option Nat :=
  if c.isDigit then some (c.toNat - 48) else none

/-- Consume one expected literal character (a `strptime` format literal). -/
def parseLit (c : Char) : List Char → Option (List Char)
  | x :: rest => if x = c then some rest else none
  | [] => none

/-- `%Y` in CPython `_strptime`: exactly four decimal digits. -/
def parseYear : List Char → Option (Nat × List Char)
  | a :: b :: c :: d :: rest => do
    let da ← digitVal a
    let db ← digitVal b
    let dc ← digitVal c
    let dd ← digitVal d
    pure (1000 * da + 100 * db + 10 * dc + dd, rest)
  | _ => none

/-- A two-digits-preferred numeric field, as CPython `_strptime` regexes
match them: try the two-digit alternative first (accepted when `twoOk`
holds of its value), fall back to a single digit (accepted when `oneOk`
holds). Every field is followed by a non-digit literal or the end of the
string, so committing to the two-digit branch never loses a parse the
regex engine would have found by backtracking. -/
def parseNum2 (twoOk oneOk : Nat → Bool) : List Char → Option (Nat × List Char)
  | c1 :: c2 :: rest =>
    match digitVal c1, digitVal c2 with
    | some d1, some d2 =>
      if twoOk (10 * d1 + d2) then some (10 * d1 + d2, rest)
      else if oneOk d1 then some (d1, c2 :: rest)
      else none
    | some d1, none =>
      if oneOk d1 then some (d1, c2 :: rest) else none
    | none, _ => none
  | [c1] =>
    match digitVal c1 with
    | some d1 => if oneOk d1 then some (d1, []) else none
    | none => none
  | [] => none

/-- Gregorian leap-year rule, as used by `datetime`. -/
def isLeapYear (y : Nat) : Bool :=
  y % 4 == 0 && (y % 100 != 0 || y % 400 == 0)

/-- Number of days in a month, as validated by the `datetime` constructor. -/
def daysInMonth (y m : Nat) : Nat :=
  if m = 2 then (if isLeapYear y then 29 else 28)
  else if m = 4 ∨ m = 6 ∨ m = 9 ∨ m = 11 then 30
  else 31

/-- CPython `datetime.datetime.strptime(s, "%Y-%m-%dT%H:%M:%S")` on the
character list of `s`: field regexes in alternation order, literal
separators `-`, `-`, `T`, `:`, `:`, full consumption of the input
("unconverted data remains" otherwise), then `datetime` construction,
which requires a positive year, a valid day of month, and seconds below
60 (the regex alone would admit leap seconds 60 and 61). -/
def strptimeCore (cs : List Char) : Option DateTime := do
  let (y, r1) ← parseYear cs
  let r2 ← parseLit '-' r1
  let (mo, r3) ← parseNum2 (fun n => 1 ≤ n && n ≤ 12) (fun d => 1 ≤ d) r2
  let r4 ← parseLit '-' r3
  let (dy, r5) ← parseNum2 (fun n => 1 ≤ n && n ≤ 31) (fun d => 1 ≤ d) r4
  let r6 ← parseLit 'T' r5
  let (h, r7) ← parseNum2 (fun n => n ≤ 23) (fun _ => true) r6
  let r8 ← parseLit ':' r7
  let (mi, r9) ← parseNum2 (fun n => n ≤ 59) (fun _ => true) r8
  let r10 ← parseLit ':' r9
  let (se, r11) ← parseNum2 (fun n => n ≤ 61) (fun _ => true) r10
  if r11 = [] ∧ 1 ≤ y ∧ se ≤ 59 ∧ dy ≤ daysInMonth y mo then
    pure ⟨y, mo, dy, h, mi, se⟩
  else
    none

/-- `strptime` with the script's fixed format, on a string. -/
def strptimeYmdHMS (s : String) : Option DateTime :=
  strptimeCore s.data

/-- Python `s[:-1]`: the string without its final character (the empty
string is unchanged). -/
def pyStripLast (s : String) : String :=
  String.mk s.data.dropLast

/-- Parsed JSON values, as returned by `json.load`. Numbers are exact
rationals. -/
inductive Json where
  | null
  | bool (b : Bool)
  | num (q : ℚ)
  | str (s : String)
  | arr (items : List Json)
  | obj (fields : List (String × Json))

/-- The ways the script can abort, one constructor per error of the spec's
taxonomy plus the Python `TypeError`s of ill-typed subscripts and the
`ValueError` of `np.min`/`np.max` on an empty array. -/
inductive ScriptError where
  | notFound
  | parseError
  | typeError
  | missingField (k : String)
  | formatError (s : String)
  | emptyReduce
  deriving DecidableEq, Repr

/-- Key lookup in a parsed JSON object (`json.load` keeps one value per
key, so position is immaterial). -/
def lookupField : List (String × Json) → String → Option Json
  | [], _ => none
  | (k, v) :: rest, key => if k == key then some v else lookupField rest key

/-- Python `j[k]` subscripting on a forecast value: a `KeyError`
(`MissingFieldError` of the spec) when the key is absent from a dict, a
`TypeError` when the value is not a dict at all. -/
def getField (j : Json) (k : String) : Except ScriptError Json :=
  match j with
  | .obj fs =>
    match lookupField fs k with
    | some v => .ok v
    | none => .error (.missingField k)
  | _ => .error .typeError

/-- Expect a JSON string (for the `date` field fed to slicing and
`strptime`; a non-string raises a `TypeError` at the same step). -/
def asStr (j : Json) : Except ScriptError String :=
  match j with
  | .str s => .ok s
  | _ => .error .typeError

/-- Expect a JSON number. (A non-numeric `value` would make Python defer
the failure to the later array arithmetic; no claim distinguishes the two
points, and the run aborts either way.) -/
def asNum (j : Json) : Except ScriptError ℚ :=
  match j with
  | .num q => .ok q
  | _ => .error .typeError

/-- `for forecast in wave_forecast`: iterating the loaded JSON value.
Arrays yield their items, dicts their keys, strings their characters;
other values are not iterable (`TypeError`). -/
def asRecordList (j : Json) : Except ScriptError (List Json) :=
  match j with
  | .arr items => .ok items
  | .obj fs => .ok (fs.map (fun kv => .str kv.1))
  | .str s => .ok (s.data.map (fun c => .str (String.mk [c])))
  | _ => .error .typeError

/-- `datetime.datetime.strptime(s[:-1], '%Y-%m-%dT%H:%M:%S')`: drop the
final character, then parse; a `ValueError` (the spec's `FormatError`)
when the remainder does not parse. -/
def parseDate (s : String) : Except ScriptError DateTime :=
  match strptimeYmdHMS (pyStripLast s) with
  | some dt => .ok dt
  | none => .error (.formatError s)

/-- One element of the `date` list comprehension. -/
def dateOf (r : Json) : Except ScriptError DateTime := do
  let d ← getField r "date"
  let s ← asStr d
  parseDate s

/-- One element of the `wave_height` comprehension:
`forecast['wave_summary']['wave_height']['value']`. -/
def heightOf (r : Json) : Except ScriptError ℚ := do
  let a ← getField r "wave_summary"
  let b ← getField a "wave_height"
  let c ← getField b "value"
  asNum c

/-- One element of the `wave_height_spread` comprehension. -/
def spreadOf (r : Json) : Except ScriptError ℚ := do
  let a ← getField r "wave_height_spread"
  let b ← getField a "value"
  asNum b

/-- One element of the `wave_height_mean` comprehension. -/
def meanOf (r : Json) : Except ScriptError ℚ := do
  let a ← getField r "wave_height_mean"
  let b ← getField a "value"
  asNum b

/-- A Python list comprehension over records: elements in order, aborting
at the first raised error. -/
def mapE {β : Type} (f : Json → Except ScriptError β) :
    List Json → Except ScriptError (List β)
  | [] => .ok []
  | x :: xs => do
    let y ← f x
    let ys ← mapE f xs
    pure (y :: ys)

/-- The `date` series. -/
def dateSeries (rs : List Json) : Except ScriptError (List DateTime) :=
  mapE dateOf rs

/-- The `wave_height` series. -/
def heightSeries (rs : List Json) : Except ScriptError (List ℚ) :=
  mapE heightOf rs

/-- The `wave_height_spread` series. -/
def spreadSeries (rs : List Json) : Except ScriptError (List ℚ) :=
  mapE spreadOf rs

/-- The `wave_height_mean` series. -/
def meanSeries (rs : List Json) : Except ScriptError (List ℚ) :=
  mapE meanOf rs

/-- A NumPy double resulting from arithmetic on the (finite, rational)
extracted values: finite, one of the two infinities, or NaN. -/
inductive NpVal where
  | fin (q : ℚ)
  | inf
  | ninf
  | nan
  deriving DecidableEq, Repr

/-- NumPy elementwise division of two finite doubles: exact quotient when
the divisor is nonzero; `±inf` on `x/0` with `x` nonzero and `nan` on
`0/0`, each emitted with a RuntimeWarning but never a raised error. -/
def ratDiv (s m : ℚ) : NpVal :=
  if m ≠ 0 then .fin (s / m)
  else if 0 < s then .inf
  else if s < 0 then .ninf
  else .nan

/-- NumPy `1 - x` on a double. -/
def oneMinus (v : NpVal) : NpVal :=
  match v with
  | .fin q => .fin (1 - q)
  | .inf => .ninf
  | .ninf => .inf
  | .nan => .nan

/-- Finiteness of a NumPy double (`np.isfinite`). -/
def NpVal.isFinite (v : NpVal) : Bool :=
  match v with
  | .fin _ => true
  | _ => false

/-- `normalized_spread = 1 - (wave_height_spread / wave_height_mean)`,
elementwise over the two extracted series. -/
def normalizedSpread (sp mn : List ℚ) : List NpVal :=
  List.zipWith (fun s m => oneMinus (ratDiv s m)) sp mn

/-- Lower bound of the shaded band:
`wave_height_mean - wave_height_spread * 0.5`, elementwise. -/
def lowerBand (mn sp : List ℚ) : List ℚ :=
  List.zipWith (fun m s => m - s * (1 / 2)) mn sp

/-- Upper bound of the shaded band:
`wave_height_mean + wave_height_spread * 0.5`, elementwise. -/
def upperBand (mn sp : List ℚ) : List ℚ :=
  List.zipWith (fun m s => m + s * (1 / 2)) mn sp

/-- Binary minimum of NumPy doubles: NaN propagates, `-inf` is least,
`inf` is greatest. -/
def npMin2 (a b : NpVal) : NpVal :=
  match a, b with
  | .nan, _ => .nan
  | _, .nan => .nan
  | .ninf, _ => .ninf
  | _, .ninf => .ninf
  | .inf, y => y
  | .fin _, .inf => a
  | .fin x, .fin y => .fin (min x y)

/-- Binary maximum of NumPy doubles: NaN propagates, `inf` is greatest. -/
def npMax2 (a b : NpVal) : NpVal :=
  match a, b with
  | .nan, _ => .nan
  | _, .nan => .nan
  | .inf, _ => .inf
  | _, .inf => .inf
  | .ninf, y => y
  | .fin _, .ninf => a
  | .fin x, .fin y => .fin (max x y)

/-- `np.min` over an array: `none` models the `ValueError` raised on a
zero-size reduction. -/
def npMinD : List NpVal → Option NpVal
  | [] => none
  | x :: xs => some (xs.foldl npMin2 x)

/-- `np.max` over an array, `none` on the empty array. -/
def npMaxD : List NpVal → Option NpVal
  | [] => none
  | x :: xs => some (xs.foldl npMax2 x)

/-- Turn the zero-size-reduction `ValueError` into a script abort. -/
def reqSome {β : Type} (o : Option β) : Except ScriptError β :=
  match o with
  | some b => .ok b
  | none => .error .emptyReduce

/-- The data handed to matplotlib: the grey line and the colored scatter
over `date`, and the shaded band bounds of `plt.fill_between`. -/
structure ChartData where
  dates : List DateTime
  waveHeight : List ℚ
  scatterColor : List NpVal
  bandLower : List ℚ
  bandUpper : List ℚ
  deriving DecidableEq, Repr

/-- Everything the run produces: `printed` is the pair interpolated into
the f-string `print(f"{np.min(...)} - {np.max(...)}")`, minimum first
(f-string fields evaluate left to right), then the chart layers. -/
structure Output where
  printed : NpVal × NpVal
  chart : ChartData
  deriving DecidableEq, Repr

/-- The script body after `json.load`: the four comprehensions in source
order, the derived `normalized_spread`, the printed min/max of its first
48 entries (`[0:48]` slicing), then the chart layers. Any raised error
aborts with no output. -/
def scriptBody (j : Json) : Except ScriptError Output := do
  let wave_forecast ← asRecordList j
  let date ← dateSeries wave_forecast
  let wave_height ← heightSeries wave_forecast
  let wave_height_spread ← spreadSeries wave_forecast
  let wave_height_mean ← meanSeries wave_forecast
  let normalized_spread := normalizedSpread wave_height_spread wave_height_mean
  let mn ← reqSome (npMinD (normalized_spread.take 48))
  let mx ← reqSome (npMaxD (normalized_spread.take 48))
  pure
    { printed := (mn, mx)
      chart :=
        { dates := date
          waveHeight := wave_height
          scatterColor := normalized_spread
          bandLower := lowerBand wave_height_mean wave_height_spread
          bandUpper := upperBand wave_height_mean wave_height_spread } }

/-- Modelled from the spec: the file system and the JSON text grammar live
outside the source (`open` and `json.load` of the Python runtime), so they
are abstracted as parameters. Per the loader contract, a path the file
system does not hold fails with `NotFoundError`, content the JSON grammar
rejects fails with `ParseError`, and otherwise the parsed value is
returned unchanged — no schema validation happens at load time. -/
def loadForecast (fs : String → Option String) (jparse : String → Option Json)
    (path : String) : Except ScriptError Json :=
  match fs path with
  | none => .error .notFound
  | some content =>
    match jparse content with
    | none => .error .parseError
    | some j => .ok j

/-- The whole run: load, then the script body. -/
def runScript (fs : String → Option String) (jparse : String → Option Json)
    (path : String) : Except ScriptError Output :=
  (loadForecast fs jparse path).bind scriptBody

/-- The normalized-spread value a single record contributes: its spread
and mean fields combined by the derived formula. -/
def recordNS (r : Json) : Except ScriptError NpVal := do
  let s ← spreadOf r
  let m ← meanOf r
  pure (oneMinus (ratDiv s m))

/-! ### Inversion lemmas for the embedded pipeline -/

theorem bind_ok_inv {ε α β : Type} {x : Except ε α} {f : α → Except ε β}
    {b : β} (h : (x >>= f) = .ok b) : ∃ a, x = .ok a ∧ f a = .ok b := by
  cases x with
  | error e => simp [Bind.bind, Except.bind] at h
  | ok a => exact ⟨a, rfl, by simpa [Bind.bind, Except.bind] using h⟩

theorem reqSome_ok {β : Type} {o : Option β} {b : β} :
    reqSome o = .ok b ↔ o = some b := by
  cases o <;> simp [reqSome]

theorem mapE_cons_ok {β : Type} {f : Json → Except ScriptError β} {x : Json}
    {xs : List Json} {ys : List β} (h : mapE f (x :: xs) = .ok ys) :
    ∃ y ts, f x = .ok y ∧ mapE f xs = .ok ts ∧ ys = y :: ts := by
  unfold mapE at h
  obtain ⟨y, hy, h⟩ := bind_ok_inv h
  obtain ⟨ts, hts, h⟩ := bind_ok_inv h
  refine ⟨y, ts, hy, hts, ?_⟩
  simpa [pure, Except.pure] using h.symm

theorem mapE_ok_length {β : Type} {f : Json → Except ScriptError β} :
    ∀ {xs : List Json} {ys : List β}, mapE f xs = .ok ys →
      ys.length = xs.length
  | [], ys, h => by
    simp only [mapE] at h
    cases h
    rfl
  | x :: xs, ys, h => by
    obtain ⟨y, ts, _, hm, rfl⟩ := mapE_cons_ok h
    simp [mapE_ok_length hm]

theorem mapE_ok_getElem? {β : Type} {f : Json → Except ScriptError β} :
    ∀ {xs : List Json} {ys : List β}, mapE f xs = .ok ys → ∀ i : Nat,
      Option.map f xs[i]? = Option.map Except.ok ys[i]?
  | [], ys, h, i => by
    simp only [mapE] at h
    cases h
    simp
  | x :: xs, ys, h, i => by
    obtain ⟨y, ts, hx, hm, rfl⟩ := mapE_cons_ok h
    cases i with
    | zero => simpa using hx
    | succ n => simpa using mapE_ok_getElem? hm n

theorem mapE_ok_take {β : Type} {f : Json → Except ScriptError β} :
    ∀ {xs : List Json} {ys : List β}, mapE f xs = .ok ys → ∀ n : Nat,
      mapE f (xs.take n) = .ok (ys.take n)
  | [], ys, h, n => by
    simp only [mapE] at h
    cases h
    simp [mapE]
  | x :: xs, ys, h, n => by
    obtain ⟨y, ts, hx, hm, rfl⟩ := mapE_cons_ok h
    cases n with
    | zero => simp [mapE]
    | succ k =>
      simp only [List.take_succ_cons]
      simp [mapE, hx, mapE_ok_take hm k, Bind.bind, Except.bind, pure,
        Except.pure]

theorem series_getElem {β : Type} {f : Json → Except ScriptError β}
    {xs : List Json} {ys : List β} (h : mapE f xs = .ok ys) {i : Nat}
    {r : Json} {b : β} (hr : xs[i]? = some r) (hb : f r = .ok b) :
    ys[i]? = some b := by
  have hmap := mapE_ok_getElem? h i
  rw [hr] at hmap
  cases hy : ys[i]? with
  | none => rw [hy] at hmap; simp [Option.map] at hmap
  | some y =>
    rw [hy] at hmap
    simp only [Option.map, hb, Option.some.injEq, Except.ok.injEq] at hmap
    rw [hmap]

theorem zipWith_getElem? {α β γ : Type} (f : α → β → γ) :
    ∀ {as : List α} {bs : List β} {i : Nat} {a : α} {b : β},
      as[i]? = some a → bs[i]? = some b →
      (List.zipWith f as bs)[i]? = some (f a b)
  | [], _, i, a, b, ha, _ => by simp at ha
  | _ :: _, [], i, a, b, _, hb => by simp at hb
  | x :: as, y :: bs, 0, a, b, ha, hb => by
    simp only [List.getElem?_cons_zero, Option.some.injEq] at ha hb
    simp [ha, hb]
  | x :: as, y :: bs, i + 1, a, b, ha, hb => by
    simp only [List.getElem?_cons_succ] at ha hb
    simpa using zipWith_getElem? f ha hb

theorem mapE_recordNS :
    ∀ {rs : List Json} {sp mn : List ℚ}, spreadSeries rs = .ok sp →
      meanSeries rs = .ok mn →
      mapE recordNS rs = .ok (normalizedSpread sp mn)
  | [], sp, mn, hs, hm => by
    simp only [spreadSeries, meanSeries, mapE] at hs hm
    cases hs
    cases hm
    rfl
  | r :: rs, sp, mn, hs, hm => by
    simp only [spreadSeries] at hs
    simp only [meanSeries] at hm
    obtain ⟨s, ts, hs1, hs2, rfl⟩ := mapE_cons_ok hs
    obtain ⟨m, tm, hm1, hm2, rfl⟩ := mapE_cons_ok hm
    have ih := mapE_recordNS (show spreadSeries rs = .ok ts from hs2)
      (show meanSeries rs = .ok tm from hm2)
    simp [mapE, recordNS, hs1, hm1, ih, normalizedSpread, Bind.bind,
      Except.bind, pure, Except.pure]

theorem scriptBody_arr_ok_inv {rs : List Json} {out : Output}
    (h : scriptBody (Json.arr rs) = .ok out) :
    ∃ ds hs sp mn mnv mxv,
      dateSeries rs = .ok ds ∧
      heightSeries rs = .ok hs ∧
      spreadSeries rs = .ok sp ∧
      meanSeries rs = .ok mn ∧
      npMinD ((normalizedSpread sp mn).take 48) = some mnv ∧
      npMaxD ((normalizedSpread sp mn).take 48) = some mxv ∧
      out = { printed := (mnv, mxv)
              chart := { dates := ds
                         waveHeight := hs
                         scatterColor := normalizedSpread sp mn
                         bandLower := lowerBand mn sp
                         bandUpper := upperBand mn sp } } := by
  simp only [scriptBody] at h
  obtain ⟨rs1, hrs, h1⟩ := bind_ok_inv h
  obtain ⟨ds, hd, h2⟩ := bind_ok_inv h1
  obtain ⟨hs, hh, h3⟩ := bind_ok_inv h2
  obtain ⟨sp, hsp, h4⟩ := bind_ok_inv h3
  obtain ⟨mn, hmn, h5⟩ := bind_ok_inv h4
  obtain ⟨mnv, hminv, h6⟩ := bind_ok_inv h5
  obtain ⟨mxv, hmaxv, h7⟩ := bind_ok_inv h6
  have hrs1 : rs1 = rs := by
    simpa [asRecordList] using hrs.symm
  subst hrs1
  refine ⟨ds, hs, sp, mn, mnv, mxv, hd, hh, hsp, hmn,
    reqSome_ok.mp hminv, reqSome_ok.mp hmaxv, ?_⟩
  simpa [pure, Except.pure] using h7.symm

set_option maxRecDepth 1000000

/-! ### Concrete sample inputs used to witness the claims -/

/-- A well-formed forecast record: `wave_height = 5`,
`wave_height_mean = 5`, `wave_height_spread = 1`. -/
def sampleRecord : Json :=
  .obj [("date", .str "2024-01-01T00:00:00Z"),
        ("wave_summary", .obj [("wave_height", .obj [("value", .num 5)])]),
        ("wave_height_mean", .obj [("value", .num 5)]),
        ("wave_height_spread", .obj [("value", .num 1)])]

/-- The output of the script on the one-record list `[sampleRecord]`. -/
def sampleOut : Output :=
  { printed := (.fin (4 / 5), .fin (4 / 5))
    chart :=
      { dates := [⟨2024, 1, 1, 0, 0, 0⟩]
        waveHeight := [5]
        scatterColor := [.fin (4 / 5)]
        bandLower := [9 / 2]
        bandUpper := [11 / 2] } }

/-- The output of the script on 48 copies of `sampleRecord`. -/
def sampleOut48 : Output :=
  { printed := (.fin (4 / 5), .fin (4 / 5))
    chart :=
      { dates := List.replicate 48 ⟨2024, 1, 1, 0, 0, 0⟩
        waveHeight := List.replicate 48 5
        scatterColor := List.replicate 48 (.fin (4 / 5))
        bandLower := List.replicate 48 (9 / 2)
        bandUpper := List.replicate 48 (11 / 2) } }

/-- A record whose `date` string carries no trailing zone marker: it
already matches `%Y-%m-%dT%H:%M:%S` exactly. -/
def noSpreadFields : List (String × Json) :=
  [("date", .str "2024-01-01T00:00:00Z"),
   ("wave_summary", .obj [("wave_height", .obj [("value", .num 5)])]),
   ("wave_height_mean", .obj [("value", .num 5)])]

/-! ### The claims -/

/-- C1: for every pair of extracted series in which the mean at an index
is nonzero (all extracted values are finite rationals), the derived
`normalized_spread` entry at that index is the finite value
`1 - spread / mean`. -/
theorem normalized_spread_elementwise (sp mn : List ℚ) (i : Nat) (s m : ℚ)
    (hsi : sp[i]? = some s) (hmi : mn[i]? = some m) (hmz : m ≠ 0) :
    (normalizedSpread sp mn)[i]? = some (.fin (1 - s / m)) := by
  have hz := zipWith_getElem? (fun s m => oneMinus (ratDiv s m)) hsi hmi
  simp only [normalizedSpread]
  rw [hz]
  simp [ratDiv, oneMinus, hmz]

/-- C1 witness: `wave_height_mean = 10` and `wave_height_spread = 2`
yield `normalized_spread = 0.8`. -/
theorem normalized_spread_elementwise_witness :
    (normalizedSpread [2] [10])[0]? = some (.fin (1 - 2 / 10)) ∧
    (NpVal.fin (1 - 2 / 10) : NpVal) = .fin 0.8 :=
  ⟨normalized_spread_elementwise [2] [10] 0 2 10 rfl rfl (by norm_num),
   by norm_num⟩

/-- C2: on every input on which the script succeeds, the four extracted
series and every derived array have length equal to the record count, and
the element at each index is computed from the record at the same index —
input order is preserved, nothing is sorted. -/
theorem series_alignment (rs : List Json) (out : Output)
    (h : scriptBody (Json.arr rs) = .ok out) :
    ∃ ds hts sp mn,
      dateSeries rs = .ok ds ∧
      heightSeries rs = .ok hts ∧
      spreadSeries rs = .ok sp ∧
      meanSeries rs = .ok mn ∧
      ds.length = rs.length ∧
      hts.length = rs.length ∧
      sp.length = rs.length ∧
      mn.length = rs.length ∧
      (∀ i : Nat, Option.map dateOf rs[i]? = Option.map Except.ok ds[i]?) ∧
      (∀ i : Nat,
        Option.map heightOf rs[i]? = Option.map Except.ok hts[i]?) ∧
      (∀ i : Nat,
        Option.map spreadOf rs[i]? = Option.map Except.ok sp[i]?) ∧
      (∀ i : Nat, Option.map meanOf rs[i]? = Option.map Except.ok mn[i]?) ∧
      out.chart.dates = ds ∧
      out.chart.waveHeight = hts ∧
      out.chart.scatterColor = normalizedSpread sp mn ∧
      out.chart.scatterColor.length = rs.length ∧
      out.chart.bandLower.length = rs.length ∧
      out.chart.bandUpper.length = rs.length := by
  obtain ⟨ds, hts, sp, mn, mnv, mxv, hd, hh, hsp, hmn, _, _, hout⟩ :=
    scriptBody_arr_ok_inv h
  subst hout
  have hlsp : sp.length = rs.length := mapE_ok_length hsp
  have hlmn : mn.length = rs.length := mapE_ok_length hmn
  refine ⟨ds, hts, sp, mn, hd, hh, hsp, hmn, mapE_ok_length hd,
    mapE_ok_length hh, hlsp, hlmn, mapE_ok_getElem? hd,
    mapE_ok_getElem? hh, mapE_ok_getElem? hsp, mapE_ok_getElem? hmn,
    rfl, rfl, rfl, ?_, ?_, ?_⟩
  · simp [normalizedSpread, List.length_zipWith, hlsp, hlmn]
  · simp [lowerBand, List.length_zipWith, hlsp, hlmn]
  · simp [upperBand, List.length_zipWith, hlsp, hlmn]

/-- C2 witness: the alignment conclusion on the one-record input. -/
theorem series_alignment_witness :
    ∃ ds hts sp mn,
      dateSeries [sampleRecord] = .ok ds ∧
      heightSeries [sampleRecord] = .ok hts ∧
      spreadSeries [sampleRecord] = .ok sp ∧
      meanSeries [sampleRecord] = .ok mn ∧
      ds.length = [sampleRecord].length ∧
      hts.length = [sampleRecord].length ∧
      sp.length = [sampleRecord].length ∧
      mn.length = [sampleRecord].length ∧
      (∀ i : Nat,
        Option.map dateOf [sampleRecord][i]? = Option.map Except.ok ds[i]?) ∧
      (∀ i : Nat,
        Option.map heightOf [sampleRecord][i]? =
          Option.map Except.ok hts[i]?) ∧
      (∀ i : Nat,
        Option.map spreadOf [sampleRecord][i]? =
          Option.map Except.ok sp[i]?) ∧
      (∀ i : Nat,
        Option.map meanOf [sampleRecord][i]? =
          Option.map Except.ok mn[i]?) ∧
      sampleOut.chart.dates = ds ∧
      sampleOut.chart.waveHeight = hts ∧
      sampleOut.chart.scatterColor = normalizedSpread sp mn ∧
      sampleOut.chart.scatterColor.length = [sampleRecord].length ∧
      sampleOut.chart.bandLower.length = [sampleRecord].length ∧
      sampleOut.chart.bandUpper.length = [sampleRecord].length :=
  series_alignment [sampleRecord] sampleOut (by with_unfolding_all decide)

/-- C3: on every successful run, the shaded-band bounds at each index are
`mean - 0.5 * spread` and `mean + 0.5 * spread` of the record at that
index (the source writes the factor as `wave_height_spread * 0.5`). -/
theorem band_bounds_half_spread (rs : List Json) (out : Output) (i : Nat)
    (r : Json) (s m : ℚ) (h : scriptBody (Json.arr rs) = .ok out)
    (hr : rs[i]? = some r) (hsv : spreadOf r = .ok s)
    (hmv : meanOf r = .ok m) :
    out.chart.bandLower[i]? = some (m - s * (1 / 2)) ∧
    out.chart.bandUpper[i]? = some (m + s * (1 / 2)) := by
  obtain ⟨ds, hts, sp, mn, mnv, mxv, hd, hh, hsp, hmn, _, _, hout⟩ :=
    scriptBody_arr_ok_inv h
  subst hout
  have hspi : sp[i]? = some s := series_getElem hsp hr hsv
  have hmni : mn[i]? = some m := series_getElem hmn hr hmv
  exact ⟨zipWith_getElem? _ hmni hspi, zipWith_getElem? _ hmni hspi⟩

/-- C3 witness: one record with `wave_height = 5`, `wave_height_mean = 5`,
`wave_height_spread = 1` gives band bounds `4.5` and `5.5`. -/
theorem band_bounds_half_spread_witness :
    sampleOut.chart.bandLower[0]? = some ((5 : ℚ) - 1 * (1 / 2)) ∧
    sampleOut.chart.bandUpper[0]? = some ((5 : ℚ) + 1 * (1 / 2)) ∧
    (5 : ℚ) - 1 * (1 / 2) = 4.5 ∧
    (5 : ℚ) + 1 * (1 / 2) = 5.5 :=
  ⟨(band_bounds_half_spread [sampleRecord] sampleOut 0 sampleRecord 1 5
      (by with_unfolding_all decide) rfl rfl rfl).1,
   (band_bounds_half_spread [sampleRecord] sampleOut 0 sampleRecord 1 5
      (by with_unfolding_all decide) rfl rfl rfl).2,
   by norm_num, by norm_num⟩

/-- C4: timestamp extraction drops the final character of the date string
and parses the remainder with `%Y-%m-%dT%H:%M:%S`; whenever the remainder
parses, extraction returns exactly that calendar instant. -/
theorem timestamp_strip_parse (s : String) (dt : DateTime)
    (h : strptimeYmdHMS (pyStripLast s) = some dt) :
    parseDate s = .ok dt := by
  simp [parseDate, h]

/-- C4 witness: `"2024-01-01T00:00:00Z"` (trailing `Z` stripped) parses
to the calendar instant 2024-01-01 00:00:00. -/
theorem timestamp_strip_parse_witness :
    strptimeYmdHMS (pyStripLast "2024-01-01T00:00:00Z") =
      some ⟨2024, 1, 1, 0, 0, 0⟩ ∧
    parseDate "2024-01-01T00:00:00Z" = .ok ⟨2024, 1, 1, 0, 0, 0⟩ :=
  ⟨by decide, timestamp_strip_parse _ _ (by decide)⟩

/-- C5: a record with `wave_height_mean = 0` and nonzero spread yields a
non-finite `normalized_spread` entry; the elementwise operation is total
(no error is raised) and the non-finite value sits in the derived series
itself. -/
theorem zero_mean_nonfinite (sp mn : List ℚ) (i : Nat) (s : ℚ)
    (hsi : sp[i]? = some s) (hsz : s ≠ 0) (hmi : mn[i]? = some 0) :
    ∃ v, (normalizedSpread sp mn)[i]? = some v ∧ v.isFinite = false := by
  have hz := zipWith_getElem? (fun s m => oneMinus (ratDiv s m)) hsi hmi
  simp only [normalizedSpread]
  rcases hsz.lt_or_lt with hlt | hgt
  · refine ⟨.inf, ?_, rfl⟩
    rw [hz]
    simp [ratDiv, oneMinus, hlt, hlt.asymm]
  · refine ⟨.ninf, ?_, rfl⟩
    rw [hz]
    simp [ratDiv, oneMinus, hgt]

/-- C5 witness: spread `2` over mean `0` produces `-inf`, which is not
finite, inside the derived series. -/
theorem zero_mean_nonfinite_witness :
    ∃ v, (normalizedSpread [2] [0])[0]? = some v ∧ v.isFinite = false :=
  zero_mean_nonfinite [2] [0] 0 2 rfl (by norm_num) rfl

/-- C6: a path the file system does not hold fails with `NotFoundError`;
content the JSON grammar rejects fails with `ParseError`; in both cases
the run's result is the bare error — the `Except` carries no records and
no derived series, so no partial result exists. -/
theorem load_error_cases (fs : String → Option String)
    (jparse : String → Option Json) (path : String) :
    (fs path = none → runScript fs jparse path = .error .notFound) ∧
    (∀ c, fs path = some c → jparse c = none →
      runScript fs jparse path = .error .parseError) := by
  constructor
  · intro h
    simp [runScript, loadForecast, h, Except.bind]
  · intro c h1 h2
    simp [runScript, loadForecast, h1, h2, Except.bind]

/-- C6 witness: a missing file aborts with `NotFoundError`; an unparsable
file aborts with `ParseError`. -/
theorem load_error_cases_witness :
    runScript (fun _ => none) (fun _ => none)
      "gfs_wave_forecast_nws_wind.json" = .error .notFound ∧
    runScript (fun _ => some "this is not JSON") (fun _ => none)
      "gfs_wave_forecast_nws_wind.json" = .error .parseError :=
  ⟨(load_error_cases (fun _ => none) (fun _ => none)
      "gfs_wave_forecast_nws_wind.json").1 rfl,
   (load_error_cases (fun _ => some "this is not JSON") (fun _ => none)
      "gfs_wave_forecast_nws_wind.json").2 "this is not JSON" rfl rfl⟩

/-- C7: loading performs no schema validation — whatever value the JSON
grammar yields is returned as is; a field access on a record fails with
`MissingFieldError` naming the key exactly when the key is absent, and
succeeds otherwise; in particular a record without `wave_height_spread`
fails at the spread extraction itself, not earlier. -/
theorem missing_field_at_use (fs : String → Option String)
    (jparse : String → Option Json) (path : String) (c : String) (j : Json)
    (fields : List (String × Json)) (k : String) :
    (fs path = some c → jparse c = some j →
      loadForecast fs jparse path = .ok j) ∧
    (lookupField fields k = none →
      getField (.obj fields) k = .error (.missingField k)) ∧
    (∀ v, lookupField fields k = some v →
      getField (.obj fields) k = .ok v) ∧
    (lookupField fields "wave_height_spread" = none →
      spreadOf (.obj fields) =
        .error (.missingField "wave_height_spread")) := by
  refine ⟨?_, ?_, ?_, ?_⟩
  · intro h1 h2
    simp [loadForecast, h1, h2]
  · intro h
    simp [getField, h]
  · intro v h
    simp [getField, h]
  · intro h
    simp [spreadOf, getField, h, Bind.bind, Except.bind]

/-- C7 witness: a record carrying every field but `wave_height_spread`
loads untouched; accessing the absent key is what raises
`MissingFieldError`. -/
theorem missing_field_at_use_witness :
    loadForecast (fun _ => some "file content")
      (fun _ => some (.arr [.obj noSpreadFields])) "p" =
      .ok (.arr [.obj noSpreadFields]) ∧
    getField (.obj noSpreadFields) "wave_height_spread" =
      .error (.missingField "wave_height_spread") ∧
    spreadOf (.obj noSpreadFields) =
      .error (.missingField "wave_height_spread") ∧
    dateOf (.obj noSpreadFields) = .ok ⟨2024, 1, 1, 0, 0, 0⟩ :=
  ⟨(missing_field_at_use (fun _ => some "file content")
      (fun _ => some (.arr [.obj noSpreadFields])) "p" "file content"
      (.arr [.obj noSpreadFields]) noSpreadFields
      "wave_height_spread").1 rfl rfl,
   (missing_field_at_use (fun _ => some "file content")
      (fun _ => some (.arr [.obj noSpreadFields])) "p" "file content"
      (.arr [.obj noSpreadFields]) noSpreadFields
      "wave_height_spread").2.1 rfl,
   (missing_field_at_use (fun _ => some "file content")
      (fun _ => some (.arr [.obj noSpreadFields])) "p" "file content"
      (.arr [.obj noSpreadFields]) noSpreadFields
      "wave_height_spread").2.2.2 rfl,
   by decide⟩

/-- C8: on every successful run with at least 48 records, the printed
pair is the minimum and the maximum — minimum first — of the
normalized-spread values computed from exactly the first 48 records. -/
theorem printed_minmax_first48 (rs : List Json) (out : Output)
    (h : scriptBody (Json.arr rs) = .ok out) (hlen : 48 ≤ rs.length) :
    ∃ ns, mapE recordNS (rs.take 48) = .ok ns ∧ ns.length = 48 ∧
      npMinD ns = some out.printed.1 ∧ npMaxD ns = some out.printed.2 := by
  obtain ⟨ds, hts, sp, mn, mnv, mxv, hd, hh, hsp, hmn, hmin, hmax, hout⟩ :=
    scriptBody_arr_ok_inv h
  subst hout
  have hns : mapE recordNS rs = .ok (normalizedSpread sp mn) :=
    mapE_recordNS hsp hmn
  have htake := mapE_ok_take hns 48
  have hlsp : sp.length = rs.length := mapE_ok_length hsp
  have hlmn : mn.length = rs.length := mapE_ok_length hmn
  refine ⟨(normalizedSpread sp mn).take 48, htake, ?_, ?_, ?_⟩
  · simp only [List.length_take, normalizedSpread, List.length_zipWith,
      hlsp, hlmn]
    omega
  · simpa using hmin
  · simpa using hmax

/-- C8 witness: 48 identical records; both printed values are `0.8`. -/
theorem printed_minmax_first48_witness :
    ∃ ns,
      mapE recordNS ((List.replicate 48 sampleRecord).take 48) = .ok ns ∧
      ns.length = 48 ∧
      npMinD ns = some sampleOut48.printed.1 ∧
      npMaxD ns = some sampleOut48.printed.2 :=
  printed_minmax_first48 (List.replicate 48 sampleRecord) sampleOut48
    (by with_unfolding_all decide) (by decide)

/-- C9 counterexample: a date string that already matches
`%Y-%m-%dT%H:%M:%S` exactly does NOT fail — after the unconditional
`[:-1]` strip, the truncated single-digit seconds field still matches
CPython's lenient `%S` pattern, so extraction succeeds (with the seconds
read from the remaining single digit). -/
theorem timestamp_exact_pattern_succeeds :
    parseDate "2024-01-01T00:00:00" = .ok ⟨2024, 1, 1, 0, 0, 0⟩ := by
  decide

/-- C9 (amended): for a record whose `date` field is the string `s`,
timestamp extraction fails — with a `FormatError` naming `s` — exactly
when the remainder of `s` after dropping its final character does not
match the (CPython-lenient) pattern `%Y-%m-%dT%H:%M:%S`; a string that
already matches the pattern exactly need not fail, because its truncated
seconds field can still match as a single digit. -/
theorem timestamp_format_error_iff (r : Json) (s : String)
    (h : getField r "date" = .ok (.str s)) :
    (dateOf r = .error (.formatError s) ↔
      strptimeYmdHMS (pyStripLast s) = none) := by
  unfold dateOf
  rw [h]
  cases hp : strptimeYmdHMS (pyStripLast s) with
  | none => simp [Bind.bind, Except.bind, asStr, parseDate, hp]
  | some dt => simp [Bind.bind, Except.bind, asStr, parseDate, hp]

/-- C9 witness: a record whose date string is too short to survive the
strip does fail with a `FormatError`. -/
theorem timestamp_format_error_iff_witness :
    (dateOf (Json.obj [("date", Json.str "2024-01-01")]) =
        .error (.formatError "2024-01-01") ↔
      strptimeYmdHMS (pyStripLast "2024-01-01") = none) ∧
    strptimeYmdHMS (pyStripLast "2024-01-01") = none :=
  ⟨timestamp_format_error_iff (Json.obj [("date", Json.str "2024-01-01")])
      "2024-01-01" rfl,
   by decide⟩

/-- C10: on the empty record list, extraction and derivation all succeed
with empty series, but the run aborts at `np.min` over the empty
first-48 slice of `normalized_spread` (the zero-size-reduction
`ValueError`), so the result is an error and no chart output exists —
zero-record inputs are not supported. -/
theorem empty_input_aborts :
    dateSeries [] = .ok [] ∧
    heightSeries [] = .ok [] ∧
    spreadSeries [] = .ok [] ∧
    meanSeries [] = .ok [] ∧
    normalizedSpread [] [] = [] ∧
    npMinD (List.take 48 (normalizedSpread [] [])) = none ∧
    scriptBody (.arr []) = .error .emptyReduce :=
  ⟨rfl, rfl, rfl, rfl, rfl, rfl, rfl⟩

end Surfrs
